import Mathlib

/-!
Shallow embedding of the Wokwi SH1107 display-controller chip core
(`src/main.c`) together with theorems checking the natural-language
specification against it.

Modelling conventions:
* Machine integers are `Nat` with explicit `% 2 ^ 32` (written `4294967296`)
  or `% 256` where the C arithmetic can wrap; widths are noted where used.
* The device record `sh1107_state_t` mirrors the C struct.  The host-facing
  opaque handles (`framebuffer`, `update_timer`) and the write-only field
  holding the multiplex value (assigned once at reset, never read) are not
  represented.  Two instrumentation counters are added: `schedule_calls`
  counts invocations of `sh1107_schedule_update` (redraw requests) and
  `timer_starts` counts actual `timer_start` invocations (a timer arm
  happens only when the `updated` flag transitions from clear to set).
* The C code writes frames through `buffer_write`; this is modelled by the
  pure per-pixel functions `renderPixel` / `renderOut` extracted from the
  body of the double loop of `sh1107_update_buffer`, while
  `sh1107_update_buffer` itself returns the state after the render
  callback runs (it only clears the `updated` flag).
* The unknown-opcode branch additionally calls `printf`; diagnostics are
  not part of the state and are not modelled.
-/

set_option autoImplicit false

namespace SH1107

/-- `state->width`: set to 128 at reset and never changed afterwards. -/
def width : Nat := 128

/-- `state->height`: set to 128 at reset and never changed afterwards. -/
def height : Nat := 128

/-- `state->x_offset`: set to 96 at reset and never changed afterwards. -/
def x_offset : Nat := 96

/-- The device state, mirroring `sh1107_state_t` in `src/main.c`.
`pixels` is the 2048-byte display RAM, modelled as a total function from
byte index to byte value; the command buffer `current_command` likewise. -/
structure sh1107_state_t where
  pixels : Nat → Nat
  display_on : Bool
  updated : Bool
  contrast : Nat
  invert : Bool
  reverse_rows : Bool
  segment_remap : Bool
  clock_divider : Nat
  phase1 : Nat
  phase2 : Nat
  active_column : Nat
  active_page : Nat
  memory_mode : Nat
  start_line : Nat
  control_byte : Bool
  continuous_mode : Bool
  command_mode : Bool
  current_command_index : Nat
  current_command_length : Nat
  current_command : Nat → Nat
  timer_starts : Nat
  schedule_calls : Nat

/-- The `multi_byte_commands` array.  In the C source it is declared with
designated initializers whose largest index is `CMD_SET_DISP_START_LINE`
(0xDC), so the array has exactly 0xDD = 221 entries; the entries at the
nine listed opcodes are 1 and all others are 0. -/
def multi_byte_commands : List Nat :=
  (List.range 221).map (fun i =>
    if i = 0x81 ∨ i = 0xa8 ∨ i = 0xad ∨ i = 0xd3 ∨ i = 0xda ∨ i = 0xd5 ∨
        i = 0xd9 ∨ i = 0xdb ∨ i = 0xdc then 1 else 0)

/-- `sh1107_reset`: assigns the listed fields of an existing state, exactly
as the C function does (fields it does not mention keep their old values;
the constant width/height/x_offset assignments are carried by the constant
definitions above). -/
def sh1107_reset (s : sh1107_state_t) : sh1107_state_t :=
  { s with
    memory_mode := 0x20
    contrast := 0x7f
    clock_divider := 1
    phase1 := 2
    phase2 := 2
    current_command_index := 0
    active_column := 0
    active_page := 0
    start_line := 0
    reverse_rows := false
    invert := false
    updated := false }

/-- `sh1107_schedule_update`: if no redraw is pending, mark it pending and
arm the one-shot timer; otherwise do nothing (the request is coalesced).
The two counters instrument calls and actual timer arms. -/
def sh1107_schedule_update (s : sh1107_state_t) : sh1107_state_t :=
  if s.updated = false then
    { s with
      updated := true
      timer_starts := s.timer_starts + 1
      schedule_calls := s.schedule_calls + 1 }
  else
    { s with schedule_calls := s.schedule_calls + 1 }

/-- The `virtual_y` computed in the render loop of `sh1107_update_buffer`:
`(reverse_rows ? height - 1 - scroll_y : scroll_y) % width`, where
`scroll_y = y + start_line` and `height - 1 - scroll_y` is evaluated in
`uint32_t` arithmetic, hence the explicit mod `2 ^ 32` wrap. -/
def code_virtual_y (s : sh1107_state_t) (y : Nat) : Nat :=
  (if s.reverse_rows then
      (4294967296 + height - 1 - (y + s.start_line)) % 4294967296
    else
      y + s.start_line) % width

/-- The `pix_index` computed in the render loop:
`(virtual_y / 8) * width + (x + x_offset + width) % width`. -/
def code_pix_index (s : sh1107_state_t) (x y : Nat) : Nat :=
  (code_virtual_y s y / 8) * width + (x + x_offset + width) % width

/-- The pixel value written by one iteration of the render loop:
`pixels[pix_index] & (1 << virtual_y % 8) ? !invert : invert`, then
`pixValue && display_on ? 0xffffffff : 0`. -/
def renderPixel (s : sh1107_state_t) (x y : Nat) : Nat :=
  let pixValue :=
    if Nat.land (s.pixels (code_pix_index s x y))
        (Nat.shiftLeft 1 (code_virtual_y s y % 8)) ≠ 0 then
      !s.invert
    else
      s.invert
  if pixValue && s.display_on then 0xffffffff else 0

/-- One iteration of the render loop as (byte position in the sink, 4-byte
value): the `buffer_write(state->framebuffer, data_offset, &pixel, 4)` call
with `data_offset = (y * width + x) * 4`. -/
def renderOut (s : sh1107_state_t) (x y : Nat) : Nat × Nat :=
  ((y * width + x) * 4, renderPixel s x y)

/-- `sh1107_update_buffer` as a state transformer: after streaming the
frame to the external sink (see `renderOut`) it clears the pending flag. -/
def sh1107_update_buffer (s : sh1107_state_t) : sh1107_state_t :=
  { s with updated := false }

/-- The effective column used by `sh1107_process_data`:
`!segment_remap ? active_column : width - 1 - active_column`, the
subtraction being `uint32_t` arithmetic (hence the explicit wrap). -/
def effective_column (s : sh1107_state_t) : Nat :=
  if !s.segment_remap then s.active_column
  else (4294967296 + width - 1 - s.active_column) % 4294967296

/-- The display-RAM cell targeted by `sh1107_process_data`:
`active_page * width + column`. -/
def data_target (s : sh1107_state_t) : Nat :=
  s.active_page * width + effective_column s

/-- `sh1107_process_data`: store the byte at the target cell, advance the
addressing cursor per the active memory mode (the `++` on the `uint8_t`
cursors is modelled by `+ 1` followed by `% 256`), and request a redraw. -/
def sh1107_process_data (s : sh1107_state_t) (value : Nat) : sh1107_state_t :=
  let s1 := { s with
    pixels := fun i => if i = data_target s then value else s.pixels i }
  let s2 :=
    if s1.memory_mode = 0x20 then
      let c := (s1.active_column + 1) % 256
      { s1 with active_column := if width ≤ c then 0 else c }
    else
      let p := (s1.active_page + 1) % 256
      if 0x10 ≤ p then
        let c := (s1.active_column + 1) % 256
        { s1 with active_page := 0, active_column := if width ≤ c then 0 else c }
      else
        { s1 with active_page := p }
  sh1107_schedule_update s2

/-- `sh1107_process_command`: decode `current_command[0]`, apply the branch
effect (with its `auto_update` flag as the second component), run the
trailing `if (auto_update && display_on) sh1107_schedule_update`, and reset
the command buffer index.  The branch order mirrors the C `switch`: all
case labels are tested before the open-range tests of the `default` arm. -/
def sh1107_process_command (s : sh1107_state_t) : sh1107_state_t :=
  let c := s.current_command 0
  let r : sh1107_state_t × Bool :=
    if c = 0x81 then ({ s with contrast := s.current_command 1 }, true)
    else if c = 0xae then (sh1107_schedule_update { s with display_on := false }, false)
    else if c = 0xaf then (sh1107_schedule_update { s with display_on := true }, false)
    else if c = 0xa6 then ({ s with invert := false }, true)
    else if c = 0xa7 then ({ s with invert := true }, true)
    else if c = 0xe3 then (s, false)
    else if c = 0x20 ∨ c = 0x21 then ({ s with memory_mode := c }, false)
    else if c = 0xd5 then
      ({ s with clock_divider := 1 + Nat.land (s.current_command 1) 0xf }, false)
    else if c = 0xd9 then
      ({ s with
          phase1 := Nat.land (s.current_command 1) 0xf
          phase2 := Nat.land (Nat.shiftRight (s.current_command 1) 4) 0xf }, false)
    else if c = 0xc0 then ({ s with reverse_rows := false }, true)
    else if c = 0xc8 then ({ s with reverse_rows := true }, true)
    else if c = 0xa0 then ({ s with segment_remap := false }, true)
    else if c = 0xa1 then ({ s with segment_remap := true }, true)
    else if c = 0xdc then ({ s with start_line := s.current_command 1 }, true)
    else if c = 0xd3 ∨ c = 0xa8 ∨ c = 0xdb ∨ c = 0xda ∨ c = 0xa5 ∨ c = 0xa4 then
      (s, false)
    else if c ≤ 0x0f then
      ({ s with active_column := Nat.lor (Nat.land s.active_column 0x70) c }, false)
    else if 0x10 ≤ c ∧ c ≤ 0x17 then
      ({ s with active_column := Nat.lor (Nat.land s.active_column 0x0f) (Nat.shiftLeft (Nat.land c 0x07) 4) }, false)
    else if 0xb0 ≤ c ∧ c ≤ 0xc0 then
      ({ s with active_page := Nat.land c 0x0f }, true)
    else (s, false)
  let s2 := if r.2 && r.1.display_on then sh1107_schedule_update r.1 else r.1
  { s2 with current_command_index := 0 }

/-- `sh1107_i2c_connect`: a new bus transaction expects a control byte. -/
def sh1107_i2c_connect (s : sh1107_state_t) : sh1107_state_t :=
  { s with control_byte := true }

/-- The parameter-count lookup `multi_byte_commands[value]`.  It is out of
bounds in the C source for `value > 0xDC` (see the theorem for claim C3);
following the spec's stated intent it is modelled as defaulting to 0
there. -/
def param_count (value : Nat) : Nat :=
  multi_byte_commands.getD value 0

/-- `sh1107_i2c_write`.  The early `return true` of the C code on an
incomplete command — which skips the trailing non-continuous-mode reset of
`control_byte` — is reproduced. -/
def sh1107_i2c_write (s : sh1107_state_t) (value : Nat) : sh1107_state_t :=
  if s.control_byte then
    { s with
      command_mode := decide (Nat.land value 0x40 = 0)
      continuous_mode := decide (Nat.land value 0x80 = 0)
      control_byte := false }
  else if s.command_mode then
    let s1 := { s with
      current_command := fun i => if i = s.current_command_index then value else s.current_command i }
    let s2 :=
      if s1.current_command_index = 0 then
        { s1 with current_command_length := 1 + param_count value }
      else s1
    let s3 := { s2 with current_command_index := (s2.current_command_index + 1) % 256 }
    if s3.current_command_index < s3.current_command_length then s3
    else
      let s4 := sh1107_process_command s3
      if s4.continuous_mode then s4 else { s4 with control_byte := true }
  else
    let s5 := sh1107_process_data s value
    if s5.continuous_mode then s5 else { s5 with control_byte := true }

/-- A fully concrete device state used to instantiate theorems: the fields
`sh1107_reset` assigns hold their reset values, the rest are fixed sample
values. -/
def s0 : sh1107_state_t :=
  sh1107_reset
    { pixels := fun _ => 0
      display_on := false
      updated := false
      contrast := 0
      invert := false
      reverse_rows := false
      segment_remap := false
      clock_divider := 0
      phase1 := 0
      phase2 := 0
      active_column := 0
      active_page := 0
      memory_mode := 0
      start_line := 0
      control_byte := true
      continuous_mode := false
      command_mode := true
      current_command_index := 0
      current_command_length := 1
      current_command := fun _ => 0
      timer_starts := 0
      schedule_calls := 0 }

/-! ### Helper lemmas -/

theorem land_shiftLeft_ne_zero (b k : Nat) :
    (Nat.land b (Nat.shiftLeft 1 k) ≠ 0) ↔ b.testBit k = true := by
  show b &&& (1 <<< k) ≠ 0 ↔ _
  rw [Nat.shiftLeft_eq, one_mul, Nat.and_two_pow]
  have h2 : 2 ^ k ≠ 0 := Nat.pos_iff_ne_zero.mp (Nat.pos_pow_of_pos k (by omega))
  cases h : b.testBit k <;> simp [h, h2]

@[simp] theorem sched_pixels (s : sh1107_state_t) :
    (sh1107_schedule_update s).pixels = s.pixels := by
  unfold sh1107_schedule_update; cases h : s.updated <;> simp [h]

@[simp] theorem sched_display_on (s : sh1107_state_t) :
    (sh1107_schedule_update s).display_on = s.display_on := by
  unfold sh1107_schedule_update; cases h : s.updated <;> simp [h]

@[simp] theorem sched_contrast (s : sh1107_state_t) :
    (sh1107_schedule_update s).contrast = s.contrast := by
  unfold sh1107_schedule_update; cases h : s.updated <;> simp [h]

@[simp] theorem sched_invert (s : sh1107_state_t) :
    (sh1107_schedule_update s).invert = s.invert := by
  unfold sh1107_schedule_update; cases h : s.updated <;> simp [h]

@[simp] theorem sched_reverse_rows (s : sh1107_state_t) :
    (sh1107_schedule_update s).reverse_rows = s.reverse_rows := by
  unfold sh1107_schedule_update; cases h : s.updated <;> simp [h]

@[simp] theorem sched_segment_remap (s : sh1107_state_t) :
    (sh1107_schedule_update s).segment_remap = s.segment_remap := by
  unfold sh1107_schedule_update; cases h : s.updated <;> simp [h]

@[simp] theorem sched_clock_divider (s : sh1107_state_t) :
    (sh1107_schedule_update s).clock_divider = s.clock_divider := by
  unfold sh1107_schedule_update; cases h : s.updated <;> simp [h]

@[simp] theorem sched_phase1 (s : sh1107_state_t) :
    (sh1107_schedule_update s).phase1 = s.phase1 := by
  unfold sh1107_schedule_update; cases h : s.updated <;> simp [h]

@[simp] theorem sched_phase2 (s : sh1107_state_t) :
    (sh1107_schedule_update s).phase2 = s.phase2 := by
  unfold sh1107_schedule_update; cases h : s.updated <;> simp [h]

@[simp] theorem sched_active_column (s : sh1107_state_t) :
    (sh1107_schedule_update s).active_column = s.active_column := by
  unfold sh1107_schedule_update; cases h : s.updated <;> simp [h]

@[simp] theorem sched_active_page (s : sh1107_state_t) :
    (sh1107_schedule_update s).active_page = s.active_page := by
  unfold sh1107_schedule_update; cases h : s.updated <;> simp [h]

@[simp] theorem sched_memory_mode (s : sh1107_state_t) :
    (sh1107_schedule_update s).memory_mode = s.memory_mode := by
  unfold sh1107_schedule_update; cases h : s.updated <;> simp [h]

@[simp] theorem sched_start_line (s : sh1107_state_t) :
    (sh1107_schedule_update s).start_line = s.start_line := by
  unfold sh1107_schedule_update; cases h : s.updated <;> simp [h]

@[simp] theorem sched_control_byte (s : sh1107_state_t) :
    (sh1107_schedule_update s).control_byte = s.control_byte := by
  unfold sh1107_schedule_update; cases h : s.updated <;> simp [h]

@[simp] theorem sched_continuous_mode (s : sh1107_state_t) :
    (sh1107_schedule_update s).continuous_mode = s.continuous_mode := by
  unfold sh1107_schedule_update; cases h : s.updated <;> simp [h]

@[simp] theorem sched_command_mode (s : sh1107_state_t) :
    (sh1107_schedule_update s).command_mode = s.command_mode := by
  unfold sh1107_schedule_update; cases h : s.updated <;> simp [h]

@[simp] theorem sched_cmd_index (s : sh1107_state_t) :
    (sh1107_schedule_update s).current_command_index = s.current_command_index := by
  unfold sh1107_schedule_update; cases h : s.updated <;> simp [h]

@[simp] theorem sched_cmd_length (s : sh1107_state_t) :
    (sh1107_schedule_update s).current_command_length = s.current_command_length := by
  unfold sh1107_schedule_update; cases h : s.updated <;> simp [h]

@[simp] theorem sched_cmd_buf (s : sh1107_state_t) :
    (sh1107_schedule_update s).current_command = s.current_command := by
  unfold sh1107_schedule_update; cases h : s.updated <;> simp [h]

@[simp] theorem sched_updated (s : sh1107_state_t) :
    (sh1107_schedule_update s).updated = true := by
  unfold sh1107_schedule_update; cases h : s.updated <;> simp [h]

@[simp] theorem sched_schedule_calls (s : sh1107_state_t) :
    (sh1107_schedule_update s).schedule_calls = s.schedule_calls + 1 := by
  unfold sh1107_schedule_update; cases h : s.updated <;> simp [h]

@[simp] theorem sched_timer_starts (s : sh1107_state_t) :
    (sh1107_schedule_update s).timer_starts =
      s.timer_starts + (if s.updated then 0 else 1) := by
  unfold sh1107_schedule_update; cases h : s.updated <;> simp [h]

/-! ### Spec-side reference renderer (written from the spec's words, for
comparison with the code-side renderer in claim C1) -/

/-- The spec's reference virtual row:
`(reverse_rows ? height - 1 - scroll_y : scroll_y) mod width` with
`scroll_y = y + start_line`, evaluated with mathematical integer mod
(nonnegative for the positive modulus `width`). -/
def spec_virtual_y (s : sh1107_state_t) (y : Nat) : Nat :=
  ((if s.reverse_rows then (height : Int) - 1 - (y + s.start_line)
    else (y : Int) + s.start_line) % (width : Int)).toNat

/-- The spec's reference source index:
`(virtual_y / 8) * width + ((x + x_offset) mod width)`. -/
def spec_pix_index (s : sh1107_state_t) (x y : Nat) : Nat :=
  (spec_virtual_y s y / 8) * width + (x + x_offset) % width

/-- The spec's reference output pixel: bit `virtual_y mod 8` of
`pixel_memory[source_index]`, XOR invert, AND display_on, mapped to
0xFFFFFFFF / 0. -/
def specPixel (s : sh1107_state_t) (x y : Nat) : Nat :=
  let b := (s.pixels (spec_pix_index s x y)).testBit (spec_virtual_y s y % 8)
  if (xor b s.invert) && s.display_on then 0xffffffff else 0

theorem virtual_y_eq (s : sh1107_state_t) (y : Nat)
    (hy : y < height) (hsl : s.start_line ≤ 255) :
    code_virtual_y s y = spec_virtual_y s y := by
  unfold code_virtual_y spec_virtual_y
  unfold height width at *
  cases hr : s.reverse_rows <;> simp [hr] <;> omega

theorem pix_index_eq (s : sh1107_state_t) (x y : Nat)
    (hy : y < height) (hsl : s.start_line ≤ 255) :
    code_pix_index s x y = spec_pix_index s x y := by
  unfold code_pix_index spec_pix_index
  rw [virtual_y_eq s y hy hsl]
  unfold width x_offset
  omega

/-- C1: for every output coordinate, the renderer writes at byte position
`(y*width+x)*4` exactly the value of the spec's reference transform. -/
theorem C1_render_matches_spec (s : sh1107_state_t) (x y : Nat)
    (hx : x < width) (hy : y < height) (hsl : s.start_line ≤ 255) :
    renderOut s x y = ((y * width + x) * 4, specPixel s x y) := by
  unfold renderOut renderPixel specPixel
  rw [pix_index_eq s x y hy hsl, virtual_y_eq s y hy hsl]
  simp only [land_shiftLeft_ne_zero]
  cases hb : (s.pixels (spec_pix_index s x y)).testBit (spec_virtual_y s y % 8) <;>
    cases hi : s.invert <;> simp [hb, hi]

/-- Witness for C1 at `s0`, `x = 0`, `y = 0`. -/
theorem C1_witness :
    (0 < width ∧ 0 < height ∧ s0.start_line ≤ 255) ∧
      renderOut s0 0 0 = ((0 * width + 0) * 4, specPixel s0 0 0) :=
  ⟨by decide, C1_render_matches_spec s0 0 0 (by decide) (by decide) (by decide)⟩

/-- C10: every display-RAM index the renderer computes is below 2048,
for any start line in [0,255], any reverse-rows setting, and any output
coordinate, including the unsigned-wrap cases of `height - 1 - scroll_y`. -/
theorem C10_pix_index_lt (s : sh1107_state_t) (x y : Nat)
    (hsl : s.start_line ≤ 255) (hx : x < width) (hy : y < height) :
    code_pix_index s x y < 2048 := by
  have h : code_virtual_y s y < 128 := by
    unfold code_virtual_y width
    omega
  unfold code_pix_index width x_offset
  unfold width at h
  omega

/-- Witness for C10 at `s0` with maximal wrap (`start_line = 255`,
`reverse_rows = true`), `x = 127`, `y = 127`. -/
theorem C10_witness :
    ({ s0 with start_line := 255, reverse_rows := true }.start_line ≤ 255 ∧
        127 < width ∧ 127 < height) ∧
      code_pix_index { s0 with start_line := 255, reverse_rows := true } 127 127 < 2048 :=
  ⟨by decide,
    C10_pix_index_lt { s0 with start_line := 255, reverse_rows := true } 127 127
      (by decide) (by decide) (by decide)⟩

/-- C3: the static opcode table has only 221 entries (indices 0 .. 0xDC),
so the C lookup `multi_byte_commands[value]` is an out-of-bounds read for
every first byte above 0xDC — for example 0xE3, the NOP opcode the
interpreter itself handles. -/
theorem C3_table_lookup_oob :
    multi_byte_commands.length = 221 ∧ multi_byte_commands.get? 0xe3 = none := by
  constructor
  · simp [multi_byte_commands]
  · rw [List.get?_eq_none]
    simp [multi_byte_commands]

/-! ### Command-interpreter characterization -/

/-- Modelled from the spec's wording, amended to the code (claim C5): the
set of opcodes whose interpreter branch marks the redraw-needed
(`auto_update`) flag: set contrast, normal/invert display, COM scan
increment/decrement, segment remap off/on, set display start line, and
page select. -/
def marksRedraw (c : Nat) : Prop :=
  c = 0x81 ∨ c = 0xa6 ∨ c = 0xa7 ∨ c = 0xc0 ∨ c = 0xc8 ∨ c = 0xa0 ∨
    c = 0xa1 ∨ c = 0xdc ∨ (0xb0 ≤ c ∧ c ≤ 0xbf)

instance (c : Nat) : Decidable (marksRedraw c) := by
  unfold marksRedraw; infer_instance

/-- Master case analysis of `sh1107_process_command`: the buffer index is
reset, the expected length is untouched, the addressing cursors stay in
range or are untouched, and a redraw is requested exactly when the branch
marks the auto-update flag with the display on, or the command is display
off/on. -/
theorem proc_master (s : sh1107_state_t) :
    (sh1107_process_command s).current_command_index = 0 ∧
    (sh1107_process_command s).current_command_length = s.current_command_length ∧
    ((sh1107_process_command s).active_column < 128 ∨
      (sh1107_process_command s).active_column = s.active_column) ∧
    ((sh1107_process_command s).active_page < 16 ∨
      (sh1107_process_command s).active_page = s.active_page) ∧
    (sh1107_process_command s).schedule_calls = s.schedule_calls +
      (if (marksRedraw (s.current_command 0) ∧ s.display_on = true) ∨
          s.current_command 0 = 0xae ∨ s.current_command 0 = 0xaf then 1 else 0) := by
  unfold sh1107_process_command
  rcases eq_or_ne (s.current_command 0) 0x81 with h | h81
  · cases hd : s.display_on <;> simp [h, hd, marksRedraw]
  rcases eq_or_ne (s.current_command 0) 0xae with h | hae
  · simp [h, marksRedraw]
  rcases eq_or_ne (s.current_command 0) 0xaf with h | haf
  · simp [h, marksRedraw]
  rcases eq_or_ne (s.current_command 0) 0xa6 with h | ha6
  · cases hd : s.display_on <;> simp [h, hd, marksRedraw]
  rcases eq_or_ne (s.current_command 0) 0xa7 with h | ha7
  · cases hd : s.display_on <;> simp [h, hd, marksRedraw]
  rcases eq_or_ne (s.current_command 0) 0xe3 with h | he3
  · simp [h, marksRedraw]
  rcases eq_or_ne (s.current_command 0) 0x20 with h | h20
  · simp [h, marksRedraw]
  rcases eq_or_ne (s.current_command 0) 0x21 with h | h21
  · simp [h, marksRedraw]
  rcases eq_or_ne (s.current_command 0) 0xd5 with h | hd5
  · simp [h, marksRedraw]
  rcases eq_or_ne (s.current_command 0) 0xd9 with h | hd9
  · simp [h, marksRedraw]
  rcases eq_or_ne (s.current_command 0) 0xc0 with h | hc0
  · cases hd : s.display_on <;> simp [h, hd, marksRedraw]
  rcases eq_or_ne (s.current_command 0) 0xc8 with h | hc8
  · cases hd : s.display_on <;> simp [h, hd, marksRedraw]
  rcases eq_or_ne (s.current_command 0) 0xa0 with h | ha0
  · cases hd : s.display_on <;> simp [h, hd, marksRedraw]
  rcases eq_or_ne (s.current_command 0) 0xa1 with h | ha1
  · cases hd : s.display_on <;> simp [h, hd, marksRedraw]
  rcases eq_or_ne (s.current_command 0) 0xdc with h | hdc
  · cases hd : s.display_on <;> simp [h, hd, marksRedraw]
  rcases eq_or_ne (s.current_command 0) 0xd3 with h | hd3
  · simp [h, marksRedraw]
  rcases eq_or_ne (s.current_command 0) 0xa8 with h | ha8
  · simp [h, marksRedraw]
  rcases eq_or_ne (s.current_command 0) 0xdb with h | hdb
  · simp [h, marksRedraw]
  rcases eq_or_ne (s.current_command 0) 0xda with h | hda
  · simp [h, marksRedraw]
  rcases eq_or_ne (s.current_command 0) 0xa5 with h | ha5
  · simp [h, marksRedraw]
  rcases eq_or_ne (s.current_command 0) 0xa4 with h | ha4
  · simp [h, marksRedraw]
  by_cases hlow : s.current_command 0 ≤ 0x0f
  · have hcol : Nat.lor (Nat.land s.active_column 0x70) (s.current_command 0) < 128 := by
      have ha : Nat.land s.active_column 0x70 < 2 ^ 7 :=
        lt_of_le_of_lt Nat.and_le_right (by omega)
      have hb : s.current_command 0 < 2 ^ 7 := by omega
      exact lt_of_lt_of_le (Nat.or_lt_two_pow ha hb) (by omega)
    have hnr : ¬ marksRedraw (s.current_command 0) := by unfold marksRedraw; omega
    simp [h81, hae, haf, ha6, ha7, he3, h20, h21, hd5, hd9, hc0, hc8, ha0, ha1,
      hdc, hd3, ha8, hdb, hda, ha5, ha4, hlow, hnr, hcol]
  by_cases hmid : 0x10 ≤ s.current_command 0 ∧ s.current_command 0 ≤ 0x17
  · have hcol : Nat.lor (Nat.land s.active_column 0x0f)
        (Nat.land (s.current_command 0) 0x07 <<< 4) < 128 := by
      have ha : Nat.land s.active_column 0x0f < 2 ^ 7 :=
        lt_of_le_of_lt Nat.and_le_right (by omega)
      have hb : Nat.land (s.current_command 0) 0x07 <<< 4 < 2 ^ 7 := by
        have h7 : Nat.land (s.current_command 0) 0x07 ≤ 0x07 := Nat.and_le_right
        rw [Nat.shiftLeft_eq]
        omega
      exact lt_of_lt_of_le (Nat.or_lt_two_pow ha hb) (by omega)
    have hnr : ¬ marksRedraw (s.current_command 0) := by unfold marksRedraw; omega
    simp [h81, hae, haf, ha6, ha7, he3, h20, h21, hd5, hd9, hc0, hc8, ha0, ha1,
      hdc, hd3, ha8, hdb, hda, ha5, ha4, hlow, hmid, hnr, hcol]
  by_cases hpage : 0xb0 ≤ s.current_command 0 ∧ s.current_command 0 ≤ 0xc0
  · have hpg : Nat.land (s.current_command 0) 0x0f < 16 :=
      lt_of_le_of_lt Nat.and_le_right (by omega)
    have hr : marksRedraw (s.current_command 0) := by
      unfold marksRedraw; omega
    cases hd : s.display_on <;>
      simp [h81, hae, haf, ha6, ha7, he3, h20, h21, hd5, hd9, hc0, hc8, ha0, ha1,
        hdc, hd3, ha8, hdb, hda, ha5, ha4, hlow, hmid, hpage, hd, hr, hpg]
  have hnr : ¬ marksRedraw (s.current_command 0) := by unfold marksRedraw; omega
  simp [h81, hae, haf, ha6, ha7, he3, h20, h21, hd5, hd9, hc0, hc8, ha0, ha1,
    hdc, hd3, ha8, hdb, hda, ha5, ha4, hlow, hmid, hpage, hnr]

/-- C5 counterexample: NOP (0xE3) is a recognized command, not a
column-address branch and not in the not-implemented set, yet with the
display on and no redraw pending it requests no renderer trigger and
leaves the pending flag clear. -/
theorem C5_counterexample :
    (sh1107_process_command { s0 with
        display_on := true
        current_command := fun i => if i = 0 then 0xe3 else 0 }).schedule_calls = 0 ∧
    (sh1107_process_command { s0 with
        display_on := true
        current_command := fun i => if i = 0 then 0xe3 else 0 }).updated = false := by
  constructor <;> rfl

/-- C5 amended: the interpreter requests a renderer trigger (a
`sh1107_schedule_update` call) exactly when the command is in the
`marksRedraw` set with the display on, or is display off/on (0xAE/0xAF),
which always request one.  NOP, memory-mode select, clock divider and
precharge mark no redraw. -/
theorem C5_redraw_requests (s : sh1107_state_t) :
    (sh1107_process_command s).schedule_calls = s.schedule_calls +
      (if (marksRedraw (s.current_command 0) ∧ s.display_on = true) ∨
          s.current_command 0 = 0xae ∨ s.current_command 0 = 0xaf then 1 else 0) :=
  (proc_master s).2.2.2.2

/-- C4 counterexample: opcode 0xC0 lies in [0xB0, 0xC0] but is the COM
scan increment command: it leaves `active_page` untouched (here 5, while
0xC0 & 0x0F = 0) and changes the configuration register `reverse_rows`. -/
theorem C4_counterexample :
    (sh1107_process_command { s0 with
        active_page := 5
        reverse_rows := true
        current_command := fun i => if i = 0 then 0xc0 else 0 }).active_page = 5 ∧
    Nat.land 0xc0 0x0f = 0 ∧
    (sh1107_process_command { s0 with
        active_page := 5
        reverse_rows := true
        current_command := fun i => if i = 0 then 0xc0 else 0 }).reverse_rows = false := by
  refine ⟨rfl, rfl, rfl⟩

/-- C4 amended: for every opcode in [0xB0, 0xBF] the one-byte command sets
`active_page = opcode & 0x0F` and changes no other configuration register,
addressing cursor, or pixel memory; 0xC0 itself is the COM-scan-increment
case instead. -/
theorem C4_page_select (s : sh1107_state_t)
    (h1 : 0xb0 ≤ s.current_command 0) (h2 : s.current_command 0 ≤ 0xbf) :
    (sh1107_process_command s).active_page = Nat.land (s.current_command 0) 0x0f ∧
    (sh1107_process_command s).pixels = s.pixels ∧
    (sh1107_process_command s).contrast = s.contrast ∧
    (sh1107_process_command s).invert = s.invert ∧
    (sh1107_process_command s).reverse_rows = s.reverse_rows ∧
    (sh1107_process_command s).segment_remap = s.segment_remap ∧
    (sh1107_process_command s).display_on = s.display_on ∧
    (sh1107_process_command s).memory_mode = s.memory_mode ∧
    (sh1107_process_command s).clock_divider = s.clock_divider ∧
    (sh1107_process_command s).phase1 = s.phase1 ∧
    (sh1107_process_command s).phase2 = s.phase2 ∧
    (sh1107_process_command s).start_line = s.start_line ∧
    (sh1107_process_command s).active_column = s.active_column ∧
    (sh1107_process_command s).current_command_length = s.current_command_length := by
  unfold sh1107_process_command
  have h81 : s.current_command 0 ≠ 0x81 := by omega
  have hae : s.current_command 0 ≠ 0xae := by omega
  have haf : s.current_command 0 ≠ 0xaf := by omega
  have ha6 : s.current_command 0 ≠ 0xa6 := by omega
  have ha7 : s.current_command 0 ≠ 0xa7 := by omega
  have he3 : s.current_command 0 ≠ 0xe3 := by omega
  have h20 : s.current_command 0 ≠ 0x20 := by omega
  have h21 : s.current_command 0 ≠ 0x21 := by omega
  have hd5 : s.current_command 0 ≠ 0xd5 := by omega
  have hd9 : s.current_command 0 ≠ 0xd9 := by omega
  have hc0 : s.current_command 0 ≠ 0xc0 := by omega
  have hc8 : s.current_command 0 ≠ 0xc8 := by omega
  have ha0 : s.current_command 0 ≠ 0xa0 := by omega
  have ha1 : s.current_command 0 ≠ 0xa1 := by omega
  have hdc : s.current_command 0 ≠ 0xdc := by omega
  have hd3 : s.current_command 0 ≠ 0xd3 := by omega
  have ha8 : s.current_command 0 ≠ 0xa8 := by omega
  have hdb : s.current_command 0 ≠ 0xdb := by omega
  have hda : s.current_command 0 ≠ 0xda := by omega
  have ha5 : s.current_command 0 ≠ 0xa5 := by omega
  have ha4 : s.current_command 0 ≠ 0xa4 := by omega
  have hlow : ¬ s.current_command 0 ≤ 0x0f := by omega
  have hmid : ¬ (0x10 ≤ s.current_command 0 ∧ s.current_command 0 ≤ 0x17) := by omega
  have hpage : 0xb0 ≤ s.current_command 0 ∧ s.current_command 0 ≤ 0xc0 := by omega
  cases hd : s.display_on <;>
    simp [h81, hae, haf, ha6, ha7, he3, h20, h21, hd5, hd9, hc0, hc8, ha0, ha1,
      hdc, hd3, ha8, hdb, hda, ha5, ha4, hlow, hmid, hpage, hd]

/-- Witness for the amended C4 at opcode 0xB3 from `s0`. -/
theorem C4_witness :
    (0xb0 ≤ ({ s0 with current_command := fun i => if i = 0 then 0xb3 else 0 } :
        sh1107_state_t).current_command 0 ∧
      ({ s0 with current_command := fun i => if i = 0 then 0xb3 else 0 } :
        sh1107_state_t).current_command 0 ≤ 0xbf) ∧
    (sh1107_process_command { s0 with
        current_command := fun i => if i = 0 then 0xb3 else 0 }).active_page =
      Nat.land (({ s0 with current_command := fun i => if i = 0 then 0xb3 else 0 } :
        sh1107_state_t).current_command 0) 0x0f :=
  ⟨⟨by decide, by decide⟩,
    (C4_page_select { s0 with current_command := fun i => if i = 0 then 0xb3 else 0 }
      (by decide) (by decide)).1⟩

/-- The set of opcodes handled by an explicit `case` label of the
interpreter's switch (both implemented and not-implemented branches). -/
def commandLabels : List Nat :=
  [0x81, 0xae, 0xaf, 0xa6, 0xa7, 0xe3, 0x20, 0x21, 0xd5, 0xd9, 0xc0, 0xc8,
    0xa0, 0xa1, 0xdc, 0xd3, 0xa8, 0xdb, 0xda, 0xa5, 0xa4]

/-- C7: a completed command whose opcode no branch recognizes is
non-fatal: the device state is unchanged except that the command buffer
index is reset to 0 (so subsequent bytes are processed normally). -/
theorem C7_unknown_opcode (s : sh1107_state_t)
    (hlab : s.current_command 0 ∉ commandLabels)
    (hlow : ¬ s.current_command 0 ≤ 0x0f)
    (hmid : ¬ (0x10 ≤ s.current_command 0 ∧ s.current_command 0 ≤ 0x17))
    (hpage : ¬ (0xb0 ≤ s.current_command 0 ∧ s.current_command 0 ≤ 0xc0)) :
    sh1107_process_command s = { s with current_command_index := 0 } := by
  simp only [commandLabels, List.mem_cons, List.not_mem_nil, or_false, not_or] at hlab
  obtain ⟨h81, hae, haf, ha6, ha7, he3, h20, h21, hd5, hd9, hc0, hc8, ha0, ha1,
    hdc, hd3, ha8, hdb, hda, ha5, ha4⟩ := hlab
  unfold sh1107_process_command
  simp [h81, hae, haf, ha6, ha7, he3, h20, h21, hd5, hd9, hc0, hc8, ha0, ha1,
    hdc, hd3, ha8, hdb, hda, ha5, ha4, hlow, hmid, hpage]

/-- Witness for C7 at unknown opcode 0x18 from `s0`. -/
theorem C7_witness :
    (({ s0 with current_command := fun i => if i = 0 then 0x18 else 0 } :
        sh1107_state_t).current_command 0 ∉ commandLabels) ∧
    sh1107_process_command { s0 with current_command := fun i => if i = 0 then 0x18 else 0 } =
      { ({ s0 with current_command := fun i => if i = 0 then 0x18 else 0 } :
          sh1107_state_t) with current_command_index := 0 } :=
  ⟨by decide,
    C7_unknown_opcode { s0 with current_command := fun i => if i = 0 then 0x18 else 0 }
      (by decide) (by decide) (by decide) (by decide)⟩

/-! ### Data writer and state invariants -/

/-- Every entry of the parameter-count table is at most 1 (and the
spec-intended default for absent opcodes is 0). -/
theorem param_count_le_one (v : Nat) : param_count v ≤ 1 := by
  unfold param_count
  by_cases h : v < multi_byte_commands.length
  · rw [List.getD_eq_getElem _ _ h]
    simp only [multi_byte_commands, List.getElem_map, List.getElem_range]
    split <;> omega
  · have hl : multi_byte_commands.length = 221 := by simp [multi_byte_commands]
    rw [List.getD_eq_default _ _ (by omega)]
    omega

/-- Case analysis of `sh1107_process_data`: the stored byte, the untouched
parser fields, the redraw request, and the cursor bounds. -/
theorem data_master (s : sh1107_state_t) (v : Nat) :
    ((sh1107_process_data s v).pixels =
      fun i => if i = data_target s then v else s.pixels i) ∧
    (sh1107_process_data s v).current_command_index = s.current_command_index ∧
    (sh1107_process_data s v).current_command_length = s.current_command_length ∧
    (sh1107_process_data s v).updated = true ∧
    (sh1107_process_data s v).schedule_calls = s.schedule_calls + 1 ∧
    (sh1107_process_data s v).timer_starts =
      s.timer_starts + (if s.updated then 0 else 1) ∧
    (sh1107_process_data s v).continuous_mode = s.continuous_mode ∧
    (sh1107_process_data s v).command_mode = s.command_mode ∧
    (sh1107_process_data s v).control_byte = s.control_byte ∧
    ((sh1107_process_data s v).active_column < 128 ∨
      (sh1107_process_data s v).active_column = s.active_column) ∧
    ((sh1107_process_data s v).active_page < 16 ∨
      (sh1107_process_data s v).active_page = s.active_page) := by
  unfold sh1107_process_data width
  by_cases hm : s.memory_mode = 0x20
  · by_cases hw : (128 : Nat) ≤ (s.active_column + 1) % 256 <;>
      simp [hm, hw] <;> omega
  · by_cases hpg : (0x10 : Nat) ≤ (s.active_page + 1) % 256
    · by_cases hw : (128 : Nat) ≤ (s.active_column + 1) % 256 <;>
        simp [hm, hpg, hw] <;> omega
    · simp [hm, hpg]
      omega

/-- C2: a data write stores the byte at
`active_page * width + effective_column` and advances the cursor per the
active memory mode. -/
theorem C2_data_write (s : sh1107_state_t) (v : Nat)
    (hc : s.active_column < width) (hp : s.active_page < 16) :
    ((sh1107_process_data s v).pixels = fun i =>
        if i = s.active_page * width +
            (if s.segment_remap then width - 1 - s.active_column else s.active_column)
          then v else s.pixels i) ∧
    (s.memory_mode = 0x20 →
      (sh1107_process_data s v).active_column = (s.active_column + 1) % width ∧
      (sh1107_process_data s v).active_page = s.active_page) ∧
    (s.memory_mode ≠ 0x20 →
      (sh1107_process_data s v).active_page = (s.active_page + 1) % 16 ∧
      (sh1107_process_data s v).active_column =
        (if s.active_page = 15 then (s.active_column + 1) % width
          else s.active_column)) := by
  unfold width at hc
  have htgt : data_target s = s.active_page * width +
      (if s.segment_remap then width - 1 - s.active_column else s.active_column) := by
    unfold data_target effective_column width
    cases hr : s.segment_remap <;> simp [hr] <;> omega
  refine ⟨?_, fun hm => ?_, fun hm => ?_⟩
  · obtain ⟨hpix, -⟩ := data_master s v
    rw [hpix, htgt]
  · unfold sh1107_process_data width
    by_cases hw : (128 : Nat) ≤ (s.active_column + 1) % 256 <;>
      simp [hm, hw] <;> omega
  · unfold sh1107_process_data width
    by_cases hpg : (0x10 : Nat) ≤ (s.active_page + 1) % 256
    · have hp15 : s.active_page = 15 := by omega
      by_cases hw : (128 : Nat) ≤ (s.active_column + 1) % 256 <;>
        simp [hm, hpg, hw, hp15] <;> omega
    · have hne : s.active_page ≠ 15 := by omega
      simp [hm, hpg, hne]
      omega

/-- Witness for C2 at `s0` (page mode, column 0, page 0), byte 0xFF. -/
theorem C2_witness :
    (s0.active_column < width ∧ s0.active_page < 16) ∧
      ((sh1107_process_data s0 0xff).pixels = fun i =>
        if i = s0.active_page * width +
            (if s0.segment_remap then width - 1 - s0.active_column else s0.active_column)
          then 0xff else s0.pixels i) :=
  ⟨⟨by decide, by decide⟩, (C2_data_write s0 0xff (by decide) (by decide)).1⟩

/-- The spec's data-model invariants on the addressing cursors and the
command-assembly buffer. -/
def StateInv (s : sh1107_state_t) : Prop :=
  s.active_column < width ∧ s.active_page < 16 ∧
    s.current_command_index < s.current_command_length ∧
    s.current_command_length ≤ 8

/-- `sh1107_process_command` establishes the invariants whenever the
cursors are in range and the recorded command length is in [1, 8]. -/
theorem proc_inv (s : sh1107_state_t) (hc : s.active_column < 128)
    (hp : s.active_page < 16) (hl1 : 1 ≤ s.current_command_length)
    (hl8 : s.current_command_length ≤ 8) :
    StateInv (sh1107_process_command s) := by
  obtain ⟨hi, hl, hcol, hpg, -⟩ := proc_master s
  unfold StateInv width
  rcases hcol with h | h <;> rcases hpg with h2 | h2 <;> omega

set_option maxRecDepth 4000 in
/-- C6: every operation — connect, a byte write (control, command or data
byte alike), and the render tick — preserves the claimed invariants, so in
particular the 8-byte command buffer is only ever written below index 8. -/
theorem C6_operations_preserve_inv :
    (∀ s, StateInv s → StateInv (sh1107_i2c_connect s)) ∧
    (∀ s v, StateInv s → StateInv (sh1107_i2c_write s v)) ∧
    (∀ s, StateInv s → StateInv (sh1107_update_buffer s)) := by
  refine ⟨?_, ?_, ?_⟩
  · intro s h
    exact h
  · intro s v h
    obtain ⟨h1, h2, h3, h4⟩ := h
    have hc128 : s.active_column < 128 := h1
    unfold sh1107_i2c_write
    by_cases hcb : s.control_byte = true
    · rw [if_pos hcb]
      exact ⟨h1, h2, h3, h4⟩
    rw [if_neg hcb]
    by_cases hcm : s.command_mode = true
    · rw [if_pos hcm]
      have hpc := param_count_le_one v
      by_cases hi0 : s.current_command_index = 0
      · by_cases hp : (0 : Nat) < param_count v
        · have hp1 : param_count v = 1 := by omega
          simp [hi0, hp1]
          exact ⟨hc128, h2, show (1 : Nat) < 2 by omega, show (2 : Nat) ≤ 8 by omega⟩
        · have hp0 : param_count v = 0 := by omega
          simp [hi0, hp0]
          split
          · exact proc_inv _ hc128 h2 (show (1 : Nat) ≤ 1 by omega)
              (show (1 : Nat) ≤ 8 by omega)
          · exact proc_inv _ hc128 h2 (show (1 : Nat) ≤ 1 by omega)
              (show (1 : Nat) ≤ 8 by omega)
      · have hidx : (s.current_command_index + 1) % 256 = s.current_command_index + 1 := by
          omega
        by_cases hlt : s.current_command_index + 1 < s.current_command_length
        · simp [hi0, hidx, hlt]
          exact ⟨hc128, h2, hlt, h4⟩
        · simp [hi0, hidx, hlt]
          split
          · exact proc_inv _ hc128 h2 (show 1 ≤ s.current_command_length by omega) h4
          · exact proc_inv _ hc128 h2 (show 1 ≤ s.current_command_length by omega) h4
    · rw [if_neg hcm]
      obtain ⟨-, hidx, hlen, -, -, -, -, -, -, hcol, hpg⟩ := data_master s v
      have hinv : StateInv (sh1107_process_data s v) := by
        unfold StateInv width
        unfold width at h1
        rcases hcol with hh | hh <;> rcases hpg with hh2 | hh2 <;> omega
      dsimp only
      split
      · exact hinv
      · exact hinv
  · intro s h
    exact h

/-- Witness for C6: the invariants hold at `s0` and are preserved by a
byte write there. -/
theorem C6_witness : StateInv s0 ∧ StateInv (sh1107_i2c_write s0 0) :=
  have h : StateInv s0 := ⟨by decide, by decide, by decide, by decide⟩
  ⟨h, C6_operations_preserve_inv.2.1 s0 0 h⟩

/-! ### Invert round trip and render coalescing -/

/-- A completed single-byte command: the assembler has just placed the
opcode at index 0 of the command buffer; the interpreter runs on it. -/
def applyCmd (c : Nat) (s : sh1107_state_t) : sh1107_state_t :=
  sh1107_process_command
    { s with current_command := fun i => if i = 0 then c else s.current_command i }

/-- The rendered pixel depends only on the listed fields. -/
theorem renderPixel_congr (s t : sh1107_state_t) (hp : t.pixels = s.pixels)
    (hi : t.invert = s.invert) (hd : t.display_on = s.display_on)
    (hr : t.reverse_rows = s.reverse_rows) (hs : t.start_line = s.start_line)
    (x y : Nat) : renderPixel t x y = renderPixel s x y := by
  unfold renderPixel code_pix_index code_virtual_y
  rw [hp, hi, hd, hr, hs]

/-- C8 counterexample: starting from a configuration that is already
inverted, the sequence invert (0xA7) then normal (0xA6) does not restore
the original frame — the claim fails when quantified over every
configuration. -/
theorem C8_counterexample :
    renderPixel (applyCmd 0xa6 (applyCmd 0xa7
        { s0 with invert := true, display_on := true })) 0 0 ≠
      renderPixel { s0 with invert := true, display_on := true } 0 0 := by
  decide

/-- C8 amended: from any state whose configuration is not already
inverted, applying invert (0xA7) then normal (0xA6) renders a frame
identical at every pixel to the original state's. -/
theorem C8_invert_roundtrip (s : sh1107_state_t) (h : s.invert = false)
    (x y : Nat) :
    renderPixel (applyCmd 0xa6 (applyCmd 0xa7 s)) x y = renderPixel s x y := by
  apply renderPixel_congr <;>
    cases hd : s.display_on <;>
      simp [applyCmd, sh1107_process_command, hd, h]

/-- Witness for the amended C8 at `s0`, `x = 3`, `y = 5`. -/
theorem C8_witness :
    s0.invert = false ∧
      renderPixel (applyCmd 0xa6 (applyCmd 0xa7 s0)) 3 5 = renderPixel s0 3 5 :=
  ⟨by decide, C8_invert_roundtrip s0 (by decide) 3 5⟩

/-- C9: with no render pending, the first data write arms the one-shot
timer and sets the pending flag; a second write before the render fires
arms no second timer; the render that then fires reads the state holding
both writes and clears the pending flag. -/
theorem C9_render_coalescing (s : sh1107_state_t) (v1 v2 : Nat)
    (h : s.updated = false) :
    (sh1107_process_data s v1).updated = true ∧
    (sh1107_process_data s v1).timer_starts = s.timer_starts + 1 ∧
    (sh1107_process_data (sh1107_process_data s v1) v2).timer_starts =
      (sh1107_process_data s v1).timer_starts ∧
    (sh1107_process_data (sh1107_process_data s v1) v2).updated = true ∧
    (sh1107_update_buffer
        (sh1107_process_data (sh1107_process_data s v1) v2)).updated = false ∧
    ((sh1107_process_data (sh1107_process_data s v1) v2).pixels = fun i =>
      if i = data_target (sh1107_process_data s v1) then v2
      else if i = data_target s then v1 else s.pixels i) := by
  obtain ⟨hpix1, -, -, hup1, -, htm1, -⟩ := data_master s v1
  obtain ⟨hpix2, -, -, hup2, -, htm2, -⟩ :=
    data_master (sh1107_process_data s v1) v2
  refine ⟨hup1, ?_, ?_, hup2, rfl, ?_⟩
  · rw [htm1, h]
    simp
  · rw [htm2, hup1]
    simp
  · rw [hpix2, hpix1]

/-- Witness for C9 at `s0` with bytes 0xAA then 0x55. -/
theorem C9_witness :
    s0.updated = false ∧
      (sh1107_process_data s0 0xaa).updated = true ∧
      (sh1107_process_data (sh1107_process_data s0 0xaa) 0x55).timer_starts =
        (sh1107_process_data s0 0xaa).timer_starts :=
  ⟨by decide,
    (C9_render_coalescing s0 0xaa 0x55 (by decide)).1,
    (C9_render_coalescing s0 0xaa 0x55 (by decide)).2.2.1⟩

end SH1107
